import Mathlib

/-!
Shallow embedding of `tools/provision.py` (Zulip development-environment
provisioning script) and proofs of the specification's claims about it.

The script runs in two phases:
* a module-level prelude: `.git` existence check, CPU architecture check,
  bootstrap `apt-get` calls needed for platform detection, `lsb_release`
  introspection, and the supported-platform gate;
* `main()`: repository registration, package installation, virtualenv setup,
  `~/.bash_profile` write, stopword copy, directory creation, setup scripts,
  mode-conditional service restarts, node installation and `npm install`.

External commands are modelled as their argument vectors; the prelude and
`main` are modelled as functions from the run's inputs (flags, detected
platform data) to the ordered trace of actions performed together with the
exit behaviour.
-/

namespace Provision

/-- An external command invocation: its argument vector, as passed to
`subprocess.check_call` / `run` / `subprocess_text_output`. -/
abbrev Cmd := List String

/-- Inputs of a provisioning run: what the host and command line provide.
`archBits` is `platform.architecture()[0]` (for example "64bit", "32bit",
or something else on exotic platforms); `vendor`/`codename` are what
`lsb_release -is` / `lsb_release -cs` would report. -/
structure RunInput where
  gitExists : Bool
  archBits : String
  vendor : String
  codename : String
  travis : Bool
  productionTravis : Bool
  docker : Bool
  py2 : Bool
deriving Repr, DecidableEq

/-- `SUPPORTED_PLATFORMS = {"Ubuntu": ["trusty", "xenial"]}`. -/
def SUPPORTED_PLATFORMS : List (String × List String) :=
  [("Ubuntu", ["trusty", "xenial"])]

/-- The prelude's support test:
`vendor in SUPPORTED_PLATFORMS and codename in SUPPORTED_PLATFORMS[vendor]`. -/
def platformSupported (vendor codename : String) : Bool :=
  match (SUPPORTED_PLATFORMS.lookup vendor) with
  | some codenames => codename ∈ codenames
  | none => false

/-- `POSTGRES_VERSION_MAP = {"trusty": "9.3", "xenial": "9.5"}`. -/
def POSTGRES_VERSION_MAP : List (String × String) :=
  [("trusty", "9.3"), ("xenial", "9.5")]

/-- `UBUNTU_COMMON_APT_DEPENDENCIES`, minus the trailing
`+ VENV_DEPENDENCIES`.  `VENV_DEPENDENCIES` is imported from
`scripts/lib/setup_venv`, which is outside the provided sources, so it is
kept as an explicit parameter `venvDeps` everywhere below. -/
def UBUNTU_COMMON_BASE : List String :=
  ["closure-compiler", "memcached", "rabbitmq-server", "redis-server",
   "hunspell-en-us", "supervisor", "git", "libssl-dev", "yui-compressor",
   "wget", "ca-certificates", "puppet", "gettext", "curl", "netcat"]

/-- `UBUNTU_COMMON_APT_DEPENDENCIES = [...] + VENV_DEPENDENCIES`. -/
def UBUNTU_COMMON_APT_DEPENDENCIES (venvDeps : List String) : List String :=
  UBUNTU_COMMON_BASE ++ venvDeps

/-- The per-codename postgres extension packages appended to the common
list in `APT_DEPENDENCIES`. -/
def postgresPackages (codename : String) : List String :=
  if codename = "trusty" then
    ["postgresql-9.3", "postgresql-9.3-tsearch-extras", "postgresql-9.3-pgroonga"]
  else if codename = "xenial" then
    ["postgresql-9.5", "postgresql-9.5-tsearch-extras", "postgresql-9.5-pgroonga"]
  else []

/-- `APT_DEPENDENCIES`: the dict keyed by codename.  A lookup for a key
outside {"trusty", "xenial"} is a Python `KeyError`, hence `none`. -/
def APT_DEPENDENCIES (venvDeps : List String) (codename : String) :
    Option (List String) :=
  if codename = "trusty" ∨ codename = "xenial" then
    some (UBUNTU_COMMON_APT_DEPENDENCIES venvDeps ++ postgresPackages codename)
  else none

/-- What the module-level prelude does before `main` can run:
the messages it prints/logs, the external commands it issues in order, and
`some code` when it calls `sys.exit(code)` (`none` means it falls through
to `main`). -/
structure PreludeResult where
  msgs : List String
  cmds : List Cmd
  exit : Option Nat
deriving Repr, DecidableEq

/-- The bootstrap `apt-get update` issued before platform detection. -/
def aptUpdateCmd : Cmd := ["sudo", "apt-get", "update"]

/-- The bootstrap install of `lsb-release` and `software-properties-common`
issued before platform detection ("Ideally we wouldn't need to install a
dependency here, before we know the codename."). -/
def lsbBootstrapInstallCmd : Cmd :=
  ["sudo", "apt-get", "install", "-y", "lsb-release", "software-properties-common"]

/-- `lsb_release -is` (vendor query). -/
def lsbVendorCmd : Cmd := ["lsb_release", "-is"]

/-- `lsb_release -cs` (codename query). -/
def lsbCodenameCmd : Cmd := ["lsb_release", "-cs"]

/-- The module-level prelude of `provision.py`: `.git` check, architecture
check, bootstrap apt commands, `lsb_release` detection, platform gate. -/
def provisionPrelude (inp : RunInput) : PreludeResult :=
  if ¬ inp.gitExists then
    { msgs := ["Error: No Zulip git repository present!",
               "To setup the Zulip development environment, you should clone the code",
               "from GitHub, rather than using a Zulip production release tarball."],
      cmds := [], exit := some 1 }
  else if inp.archBits ≠ "64bit" ∧ inp.archBits ≠ "32bit" then
    { msgs := ["Only x86 is supported; ping zulip-devel@googlegroups.com if you want another architecture."],
      cmds := [], exit := some 1 }
  else if ¬ platformSupported inp.vendor inp.codename then
    { msgs := ["Unsupported platform: " ++ inp.vendor ++ " " ++ inp.codename],
      cmds := [aptUpdateCmd, lsbBootstrapInstallCmd, lsbVendorCmd, lsbCodenameCmd],
      exit := some 1 }
  else
    { msgs := [],
      cmds := [aptUpdateCmd, lsbBootstrapInstallCmd, lsbVendorCmd, lsbCodenameCmd],
      exit := none }

/-- A command that installs packages: an `apt-get` invocation whose
arguments include `install`. -/
def isPackageInstallCmd (c : Cmd) : Bool :=
  ("apt-get" ∈ c ∧ "install" ∈ c : Bool)

/-- A command that registers a package repository: `add-apt-repository`
or the `setup-apt-repo` helper script. -/
def isRepoRegistrationCmd (c : Cmd) : Bool :=
  ("add-apt-repository" ∈ c ∨ "./scripts/lib/setup-apt-repo" ∈ c : Bool)

/-! ### The retry wrapper

`main` twice uses the pattern
```
try: action()
except subprocess.CalledProcessError:
    print(WARNING + "...; retrying..." + ENDC)
    action()
```
(once for `add-apt-repository -y ppa:groonga/ppa`, once for
`setup_node_modules`).  `retryTwice action` runs the attempts of `action`
(attempt number passed explicitly, so a model action may behave differently
per attempt) and returns the final result together with the number of
attempts made and the number of warnings printed.  A failure of the second
attempt propagates unchanged. -/

/-- The one-retry wrapper used around the groonga-repository registration
and around `setup_node_modules`. -/
def retryTwice {E A : Type} (action : Nat → Except E A) :
    Except E A × Nat × Nat :=
  match action 0 with
  | .ok a => (.ok a, 1, 0)
  | .error _ => (action 1, 2, 1)

/-! ### The step sequence of `main`

Each `run([...])` / internal python action in `main`, in source order, as a
named step with the maximum number of attempts the code makes for it
(2 exactly for the two try/except blocks above, 1 for everything else).
The instantiated sequence depends on the mode flags exactly as the
`if TRAVIS ... else ...`, `elif "--docker" in sys.argv`, and
`if not PRODUCTION_TRAVIS` branches do. -/

/-- One unit of work `main` performs, with the number of attempts the
code is prepared to make for it. -/
structure Step where
  name : String
  maxAttempts : Nat
deriving Repr, DecidableEq

/-- A single-attempt step. -/
def once (name : String) : Step := ⟨name, 1⟩

/-- The mode flags `main` branches on (a projection of `RunInput`). -/
structure Flags where
  travis : Bool
  productionTravis : Bool
  docker : Bool
  py2 : Bool
deriving Repr, DecidableEq

/-- The flags of a run input. -/
def RunInput.flags (inp : RunInput) : Flags :=
  ⟨inp.travis, inp.productionTravis, inp.docker, inp.py2⟩

/-- The ordered sequence of steps `main` executes, translated from the
body of `main()` in source order. -/
def mainSteps (f : Flags) : List Step :=
  [once "setup-apt-repo",
   ⟨"add-apt-repository groonga ppa", 2⟩,
   once "apt-get update",
   once "apt-get install APT_DEPENDENCIES"] ++
  (if f.travis then
    (if f.py2 then
      [once "setup_virtualenv py3 mypy", once "setup_virtualenv py2 dev"]
     else
      [once "setup_virtualenv py3 dev"])
   else
    [once "setup_venvs.main"]) ++
  [once "write ~/.bash_profile",
   once "cp stopwords",
   once "mkdir -p var/log",
   once "mkdir -p var/uploads",
   once "mkdir -p var/test_uploads",
   once "mkdir -p var/coverage",
   once "mkdir -p var/linecoverage-report",
   once "mkdir -p var/node-coverage",
   once "download-zxcvbn",
   once "build_emoji",
   once "generate_secrets --development"] ++
  (if f.travis ∧ ¬ f.productionTravis then
    [once "service rabbitmq-server restart",
     once "service redis-server restart",
     once "service memcached restart"]
   else if f.docker then
    [once "service rabbitmq-server restart",
     once "pg_dropcluster --stop main",
     once "pg_createcluster -e utf8 --start main",
     once "service redis-server restart",
     once "service memcached restart"]
   else []) ++
  (if ¬ f.productionTravis then
    [once "configure-rabbitmq",
     once "postgres-init-dev-db",
     once "do-destroy-rebuild-database",
     once "postgres-init-test-db",
     once "do-destroy-rebuild-test-database",
     once "manage.py compilemessages"]
   else []) ++
  [once "install-node",
   ⟨"setup_node_modules", 2⟩]

/-! ### The `~/.bash_profile` write

```
with open(os.path.expanduser('~/.bash_profile'), 'w+') as bash_profile:
    bash_profile.writelines([
        "source .bashrc\n",
        "source %s\n" % (os.path.join(VENV_PATH, "bin", "activate"),),
    ])
```
Mode `'w+'` truncates the file on open, so the resulting content is exactly
the two written lines, whatever the file held before. -/

/-- `VENV_PATH`: `/srv/zulip-venv` under Python 2, `/srv/zulip-py3-venv`
under Python 3. -/
def VENV_PATH (py2 : Bool) : String :=
  if py2 then "/srv/zulip-venv" else "/srv/zulip-py3-venv"

/-- The fragment `main` writes into `~/.bash_profile`. -/
def bashProfileFragment (py2 : Bool) : String :=
  "source .bashrc\n" ++ "source " ++ VENV_PATH py2 ++ "/bin/activate\n"

/-- The content of `~/.bash_profile` after `main`'s write, as a function
of its previous content `old` (open mode `'w+'`). -/
def writeBashProfile (py2 : Bool) (old : String) : String :=
  let _ := old
  bashProfileFragment py2

/-! ### Filesystem model for `mkdir -p` (directory creation)

`main` creates its six `var/...` directories with `run(["mkdir", "-p", p])`.
`mkdir -p` is an external command; its semantics is modelled from the spec
(§4.5 `ensure_directory`): create the full path including intermediate
segments; succeed unconditionally if the path already exists as a
directory; fail (`IoError`) if a component of the path exists as a
non-directory. -/

/-- A filesystem path, as its list of components. -/
abbrev Path := List String

/-- Modelled from the spec: the filesystem state `ensure_directory`
(`mkdir -p`) acts on — which paths currently exist as directories and
which as non-directory files. -/
structure FS where
  dirs : List Path
  files : List Path
deriving Repr, DecidableEq

/-- The nonempty prefixes of a path (each intermediate segment and the
path itself). -/
def pathPrefixes (p : Path) : List Path :=
  p.inits.filter (fun q => ¬ q.isEmpty)

/-- Modelled from the spec: `ensure_directory` / `mkdir -p p`.  Fails iff
some component of `p` exists as a non-directory file; otherwise creates
every missing intermediate segment and `p` itself as directories. -/
def mkdirP (fs : FS) (p : Path) : Option FS :=
  if (pathPrefixes p).any (fun q => q ∈ fs.files) then none
  else some { fs with
    dirs := fs.dirs ++ (pathPrefixes p).filter (fun q => q ∉ fs.dirs) }

/-! ### Abstract provisioning state for idempotence of the step actions

The mutating actions the re-invocation claim enumerates — package
installation, directory creation, file copy — plus the profile write, act
on this state.  `apt-get install` and `cp` are external commands, modelled
from the spec: installing an already-installed package is a no-op
(idempotent), `ensure_file_copied` always overwrites the destination with
the static source content. -/

/-- Modelled from the spec: the machine state the pipeline's mutating
actions act on. -/
structure ProvState where
  installed : List String
  fs : FS
  stopwordsDst : Option String
  bashProfile : String
deriving Repr, DecidableEq

/-- Modelled from the spec: `apt-get install pkgs` — the installed set
grows by the not-yet-installed packages; re-installing is a no-op. -/
def installPackages (pkgs : List String) (s : ProvState) : ProvState :=
  { s with installed := s.installed ++ pkgs.filter (fun p => p ∉ s.installed) }

/-- The static content of the repository's stopword file
`puppet/zulip/files/postgresql/zulip_english.stop`. -/
def repoStopwordsContent : String := "zulip_english.stop content"

/-- Modelled from the spec: `ensure_file_copied`
(`sudo cp REPO_STOPWORDS_PATH TSEARCH_STOPWORDS_PATH`) — always
overwrites the destination with the source content. -/
def copyStopwords (s : ProvState) : ProvState :=
  { s with stopwordsDst := some repoStopwordsContent }

/-- The profile-write action on the abstract state (open `'w+'`,
write the fragment). -/
def writeProfileAction (py2 : Bool) (s : ProvState) : ProvState :=
  { s with bashProfile := writeBashProfile py2 s.bashProfile }

/-! ### Service data model (for the `--docker` branch)

The service-restart block is mode-conditional.  Its commands, in order: -/

/-- The external service commands the mode branch issues. -/
def serviceCmds (f : Flags) : List Cmd :=
  if f.travis ∧ ¬ f.productionTravis then
    [["sudo", "service", "rabbitmq-server", "restart"],
     ["sudo", "service", "redis-server", "restart"],
     ["sudo", "service", "memcached", "restart"]]
  else if f.docker then
    [["sudo", "service", "rabbitmq-server", "restart"],
     ["sudo", "pg_dropcluster", "--stop", "POSTGRES_VERSION", "main"],
     ["sudo", "pg_createcluster", "-e", "utf8", "--start", "POSTGRES_VERSION", "main"],
     ["sudo", "service", "redis-server", "restart"],
     ["sudo", "service", "memcached", "restart"]]
  else []

/-- Modelled from the spec: the per-service stored data a run may touch.
`pgCluster = none` means no cluster exists; `some d` is a cluster holding
data `d` (`0` encodes a fresh, empty cluster). -/
structure ServiceState where
  rabbitData : Nat
  redisData : Nat
  memcachedData : Nat
  pgCluster : Option Nat
deriving Repr, DecidableEq

/-- Modelled from the spec: the effect of one service command on service
data — `service ... restart` leaves stored data unchanged,
`pg_dropcluster` removes the cluster and its data, `pg_createcluster`
creates a fresh empty cluster. -/
def svcEffect (c : Cmd) (s : ServiceState) : ServiceState :=
  if c.take 2 = ["sudo", "pg_dropcluster"] then { s with pgCluster := none }
  else if c.take 2 = ["sudo", "pg_createcluster"] then { s with pgCluster := some 0 }
  else s

/-- The effect of the whole mode-conditional service block on service
data. -/
def runServiceBlock (f : Flags) (s : ServiceState) : ServiceState :=
  (serviceCmds f).foldl (fun st c => svcEffect c st) s

/-! ## Theorems for the claims -/

/-- C9: if no `.git` directory exists at the project root, the program
prints an error message and exits with status 1 before detecting the
platform and before invoking any external command (its command trace is
empty, so in particular no `lsb_release` detection query was issued). -/
theorem git_check_exits_first (inp : RunInput) (h : inp.gitExists = false) :
    (provisionPrelude inp).exit = some 1 ∧
    (provisionPrelude inp).cmds = [] ∧
    (provisionPrelude inp).msgs.head? =
      some "Error: No Zulip git repository present!" := by
  simp [provisionPrelude, h]

/-- Witness for C9 at a concrete run input. -/
theorem git_check_exits_first_witness :
    (provisionPrelude ⟨false, "64bit", "Ubuntu", "xenial", false, false, false, false⟩).exit = some 1 ∧
    (provisionPrelude ⟨false, "64bit", "Ubuntu", "xenial", false, false, false, false⟩).cmds = [] ∧
    (provisionPrelude ⟨false, "64bit", "Ubuntu", "xenial", false, false, false, false⟩).msgs.head? =
      some "Error: No Zulip git repository present!" :=
  git_check_exits_first ⟨false, "64bit", "Ubuntu", "xenial", false, false, false, false⟩ rfl

/-- C2: for the one-retry wrapper (max two attempts): an action failing on
the first attempt and succeeding on the second returns that success after
exactly 2 attempts with exactly one warning; an action failing on both
attempts returns the second (last observed) error unchanged after exactly
2 attempts, never more. -/
theorem retryTwice_spec {E A : Type} (action : Nat → Except E A) :
    (∀ e a, action 0 = .error e → action 1 = .ok a →
      retryTwice action = (.ok a, 2, 1)) ∧
    (∀ e0 e1, action 0 = .error e0 → action 1 = .error e1 →
      retryTwice action = (.error e1, 2, 1)) := by
  constructor <;> intro x y h0 h1 <;> simp [retryTwice, h0, h1]

/-- A demonstration action that fails on its first attempt and succeeds on
its second. -/
def flakyAction : Nat → Except String Nat :=
  fun n => if n = 0 then .error "transient network failure" else .ok 42

/-- A demonstration action that fails on every attempt. -/
def brokenAction : Nat → Except String Nat :=
  fun n => if n = 0 then .error "first failure" else .error "second failure"

/-- Witness for C2 at concrete actions. -/
theorem retryTwice_spec_witness :
    retryTwice flakyAction = (.ok 42, 2, 1) ∧
    retryTwice brokenAction = (.error "second failure", 2, 1) :=
  ⟨(retryTwice_spec flakyAction).1 "transient network failure" 42 rfl rfl,
   (retryTwice_spec brokenAction).2 "first failure" "second failure" rfl rfl⟩

/-- C4 counterexample: the profile write does not append.  With
pre-existing content `"export EDITOR=vim\n"`, the resulting
`~/.bash_profile` is exactly the activation fragment — the pre-existing
content is not preserved (the result is not the old content with the
fragment appended, and the old content is no prefix of the result). -/
theorem bash_profile_not_appended :
    writeBashProfile false "export EDITOR=vim\n" =
      "source .bashrc\nsource /srv/zulip-py3-venv/bin/activate\n" ∧
    writeBashProfile false "export EDITOR=vim\n" ≠
      "export EDITOR=vim\n" ++ bashProfileFragment false ∧
    ¬ "export EDITOR=vim\n".toList <+:
      (writeBashProfile false "export EDITOR=vim\n").toList := by
  refine ⟨rfl, by decide, by decide⟩

/-- C4 (amended): on every successful run the pipeline writes the
shell-profile fragment activating the provisioned runtime environment to
the invoking user's profile file, overwriting it: the resulting content is
exactly the fragment (sourcing `.bashrc` and the virtualenv activation
script), independent of the profile's previous contents, which are not
preserved. -/
theorem bash_profile_overwritten (py2 : Bool) (old : String) :
    writeBashProfile py2 old = bashProfileFragment py2 ∧
    writeBashProfile py2 old =
      (if py2 then "source .bashrc\nsource /srv/zulip-venv/bin/activate\n"
       else "source .bashrc\nsource /srv/zulip-py3-venv/bin/activate\n") := by
  cases py2 <;> exact ⟨rfl, rfl⟩

/-- C6: dependency resolution is a pure, deterministic function of the
platform identity: two resolutions with the same codename are identical,
and for each supported codename the result is the fixed ordered list
(common base, then the venv dependencies, then the codename's postgres
packages) — order-stable. -/
theorem resolve_deterministic (venvDeps : List String) (c : String) :
    APT_DEPENDENCIES venvDeps c = APT_DEPENDENCIES venvDeps c ∧
    APT_DEPENDENCIES venvDeps "trusty" =
      some (UBUNTU_COMMON_BASE ++ venvDeps ++ postgresPackages "trusty") ∧
    APT_DEPENDENCIES venvDeps "xenial" =
      some (UBUNTU_COMMON_BASE ++ venvDeps ++ postgresPackages "xenial") := by
  refine ⟨rfl, ?_, ?_⟩ <;>
    simp [APT_DEPENDENCIES, UBUNTU_COMMON_APT_DEPENDENCIES, List.append_assoc]

/-- C7: resolution for (Ubuntu, xenial) yields a package list containing
the database-engine package whose version (`9.5`, from
`POSTGRES_VERSION_MAP`) is tied to codename xenial, and that list is
distinct from the one resolved for trusty — which does not contain the
xenial-versioned engine package at all (provided the shared venv
dependency list does not smuggle it in). -/
theorem xenial_resolution_distinct (venvDeps : List String)
    (h : "postgresql-9.5" ∉ venvDeps) :
    POSTGRES_VERSION_MAP.lookup "xenial" = some "9.5" ∧
    ∃ lx lt, APT_DEPENDENCIES venvDeps "xenial" = some lx ∧
      APT_DEPENDENCIES venvDeps "trusty" = some lt ∧
      "postgresql-9.5" ∈ lx ∧ "postgresql-9.5" ∉ lt ∧ lx ≠ lt := by
  refine ⟨by decide, _, _, rfl, rfl, ?_, ?_, ?_⟩
  · simp [UBUNTU_COMMON_APT_DEPENDENCIES, postgresPackages]
  · simp only [UBUNTU_COMMON_APT_DEPENDENCIES, postgresPackages,
      List.mem_append, not_or]
    refine ⟨⟨by decide, h⟩, by decide⟩
  · intro he
    have hx : "postgresql-9.5" ∈
        UBUNTU_COMMON_APT_DEPENDENCIES venvDeps ++ postgresPackages "xenial" := by
      simp [UBUNTU_COMMON_APT_DEPENDENCIES, postgresPackages]
    rw [he] at hx
    have ht : "postgresql-9.5" ∉
        UBUNTU_COMMON_APT_DEPENDENCIES venvDeps ++ postgresPackages "trusty" := by
      simp only [UBUNTU_COMMON_APT_DEPENDENCIES, postgresPackages,
        List.mem_append, not_or]
      exact ⟨⟨by decide, h⟩, by decide⟩
    exact ht hx

/-- Witness for C7 with an empty venv dependency list. -/
theorem xenial_resolution_distinct_witness :
    POSTGRES_VERSION_MAP.lookup "xenial" = some "9.5" ∧
    ∃ lx lt, APT_DEPENDENCIES [] "xenial" = some lx ∧
      APT_DEPENDENCIES [] "trusty" = some lt ∧
      "postgresql-9.5" ∈ lx ∧ "postgresql-9.5" ∉ lt ∧ lx ≠ lt :=
  xenial_resolution_distinct [] (by decide)

/-- C5: in every mode, the steps `main` is prepared to attempt more than
once are exactly the groonga package-repository registration and
`setup_node_modules` (the environment-dependency installation), in that
order; every other step — in particular the `apt-get install` of the
resolved dependencies — is attempted exactly once. -/
theorem retry_scope_exact (f : Flags) :
    ((mainSteps f).filter (fun st => 1 < st.maxAttempts)).map Step.name =
      ["add-apt-repository groonga ppa", "setup_node_modules"] ∧
    Step.mk "apt-get install APT_DEPENDENCIES" 1 ∈ mainSteps f ∧
    ∀ st ∈ mainSteps f, st.maxAttempts = 1 ∨
      st.name = "add-apt-repository groonga ppa" ∨
      st.name = "setup_node_modules" := by
  obtain ⟨t, pt, d, p2⟩ := f
  cases t <;> cases pt <;> cases d <;> cases p2 <;> decide

/-- C1 counterexample: on a 64-bit host with a git checkout whose detected
platform (Ubuntu, bionic) is not in the support matrix, the run exits with
status 1, but its command trace already contains the bootstrap
`apt-get install -y lsb-release software-properties-common` — an external
command that installs packages — so the program does not exit before every
package-installing command. -/
theorem unsupported_platform_installs_first :
    ¬ platformSupported "Ubuntu" "bionic" ∧
    (provisionPrelude ⟨true, "64bit", "Ubuntu", "bionic", false, false, false, false⟩).exit = some 1 ∧
    lsbBootstrapInstallCmd ∈
      (provisionPrelude ⟨true, "64bit", "Ubuntu", "bionic", false, false, false, false⟩).cmds ∧
    isPackageInstallCmd lsbBootstrapInstallCmd = true := by
  decide

/-- C1 (amended): a run detecting an unsupported CPU architecture (neither
"64bit" nor "32bit") exits with status 1 before issuing any external
command; a run on a supported architecture detecting an unsupported
(vendor, codename) exits with status 1 having issued only the four
bootstrap detection commands (`apt-get update`, the install of
`lsb-release`/`software-properties-common`, and the two `lsb_release`
queries) — in particular before any repository-registration command and
before `main`'s installation of the resolved dependencies. -/
theorem platform_gate_amended (inp : RunInput) :
    (inp.archBits ≠ "64bit" → inp.archBits ≠ "32bit" →
      (provisionPrelude inp).exit = some 1 ∧ (provisionPrelude inp).cmds = []) ∧
    (inp.gitExists = true →
      (inp.archBits = "64bit" ∨ inp.archBits = "32bit") →
      ¬ platformSupported inp.vendor inp.codename →
      (provisionPrelude inp).exit = some 1 ∧
      (provisionPrelude inp).cmds =
        [aptUpdateCmd, lsbBootstrapInstallCmd, lsbVendorCmd, lsbCodenameCmd] ∧
      ∀ c ∈ (provisionPrelude inp).cmds, isRepoRegistrationCmd c = false) := by
  constructor
  · intro h64 h32
    by_cases hg : inp.gitExists
    · simp [provisionPrelude, hg, h64, h32]
    · simp [provisionPrelude, hg]
  · intro hg harch hp
    rcases harch with h | h <;>
      refine ⟨?_, ?_, ?_⟩ <;>
        simp [provisionPrelude, hg, h, hp] <;>
          decide

/-- Witness for C1 (amended): a host reporting architecture "aarch" exits
with an empty command trace; a 64-bit Ubuntu bionic host exits after
exactly the bootstrap detection commands, none of which registers a
repository. -/
theorem platform_gate_amended_witness :
    ((provisionPrelude ⟨true, "aarch", "Ubuntu", "xenial", false, false, false, false⟩).exit = some 1 ∧
     (provisionPrelude ⟨true, "aarch", "Ubuntu", "xenial", false, false, false, false⟩).cmds = []) ∧
    ((provisionPrelude ⟨true, "64bit", "Ubuntu", "bionic", false, false, false, false⟩).exit = some 1 ∧
     (provisionPrelude ⟨true, "64bit", "Ubuntu", "bionic", false, false, false, false⟩).cmds =
       [aptUpdateCmd, lsbBootstrapInstallCmd, lsbVendorCmd, lsbCodenameCmd] ∧
     ∀ c ∈ (provisionPrelude ⟨true, "64bit", "Ubuntu", "bionic", false, false, false, false⟩).cmds,
       isRepoRegistrationCmd c = false) :=
  ⟨(platform_gate_amended ⟨true, "aarch", "Ubuntu", "xenial", false, false, false, false⟩).1
      (by decide) (by decide),
   (platform_gate_amended ⟨true, "64bit", "Ubuntu", "bionic", false, false, false, false⟩).2
      rfl (Or.inl rfl) (by decide)⟩

/-- Helper: a successful `mkdirP` creates every prefix of the path as a
directory, leaves the files untouched, and a second call on the resulting
state succeeds and changes nothing. -/
theorem mkdirP_spec (fs fs' : FS) (p : Path) (h : mkdirP fs p = some fs') :
    (∀ q ∈ pathPrefixes p, q ∈ fs'.dirs) ∧
    fs'.files = fs.files ∧
    mkdirP fs' p = some fs' := by
  unfold mkdirP at h
  by_cases hc : (pathPrefixes p).any (fun q => decide (q ∈ fs.files)) = true
  · rw [if_pos hc] at h
    exact absurd h (by simp)
  · rw [if_neg hc] at h
    obtain rfl :
        ({ fs with dirs := fs.dirs ++ (pathPrefixes p).filter (fun q => q ∉ fs.dirs) } : FS)
          = fs' := Option.some.inj h
    have hdirs : ∀ q ∈ pathPrefixes p,
        q ∈ fs.dirs ++ (pathPrefixes p).filter (fun q => q ∉ fs.dirs) := by
      intro q hq
      rcases Decidable.em (q ∈ fs.dirs) with hd | hd
      · exact List.mem_append_left _ hd
      · exact List.mem_append_right _ (List.mem_filter.mpr ⟨hq, by simpa using hd⟩)
    refine ⟨hdirs, rfl, ?_⟩
    unfold mkdirP
    dsimp only
    rw [if_neg hc]
    have hnil : (pathPrefixes p).filter
        (fun q => decide (q ∉ fs.dirs ++ (pathPrefixes p).filter (fun q => q ∉ fs.dirs))) = [] := by
      rw [List.filter_eq_nil_iff]
      intro q hq
      simp only [decide_eq_true_eq, not_not]
      exact hdirs q hq
    rw [hnil, List.append_nil]

/-- C8: `ensure_directory` (`mkdir -p`) is idempotent: a successful call
creates every intermediate segment of the path as a directory, and calling
it again on the resulting filesystem succeeds without error and leaves the
filesystem exactly as it was. -/
theorem ensure_directory_idempotent (fs fs' : FS) (p : Path)
    (h : mkdirP fs p = some fs') :
    (∀ q ∈ pathPrefixes p, q ∈ fs'.dirs) ∧ mkdirP fs' p = some fs' :=
  ⟨(mkdirP_spec fs fs' p h).1, (mkdirP_spec fs fs' p h).2.2⟩

/-- Witness for C8: creating `var/log` on an empty filesystem, then again
on the result. -/
theorem ensure_directory_idempotent_witness :
    (∀ q ∈ pathPrefixes ["var", "log"],
      q ∈ (FS.mk [["var"], ["var", "log"]] []).dirs) ∧
    mkdirP ⟨[["var"], ["var", "log"]], []⟩ ["var", "log"] =
      some ⟨[["var"], ["var", "log"]], []⟩ :=
  ensure_directory_idempotent ⟨[], []⟩ ⟨[["var"], ["var", "log"]], []⟩ ["var", "log"] (by decide)

/-- Helper: appending the not-yet-present elements of `new` is idempotent. -/
theorem extendMissing_idem (l new : List String) :
    (l ++ new.filter (fun x => x ∉ l)) ++
      new.filter (fun x => x ∉ l ++ new.filter (fun y => y ∉ l)) =
    l ++ new.filter (fun x => x ∉ l) := by
  have hmem : ∀ x ∈ new, x ∈ l ++ new.filter (fun y => y ∉ l) := by
    intro x hx
    rcases Decidable.em (x ∈ l) with hl | hl
    · exact List.mem_append_left _ hl
    · exact List.mem_append_right _ (List.mem_filter.mpr ⟨hx, by simpa using hl⟩)
  have hnil : new.filter (fun x => decide (x ∉ l ++ new.filter (fun y => y ∉ l))) = [] := by
    rw [List.filter_eq_nil_iff]
    intro x hx
    simp only [decide_eq_true_eq, not_not]
    exact hmem x hx
  rw [hnil, List.append_nil]

/-- C3: each of the pipeline's mutating step actions — package
installation, directory creation, file copy, and the profile write — is
individually idempotent: applying it a second time succeeds and leaves the
state produced by the first application unchanged, so a second pipeline
run neither duplicates resources nor fails because a resource already
exists. -/
theorem step_actions_idempotent :
    (∀ (s : ProvState) (pkgs : List String),
      installPackages pkgs (installPackages pkgs s) = installPackages pkgs s) ∧
    (∀ s : ProvState, copyStopwords (copyStopwords s) = copyStopwords s) ∧
    (∀ (py2 : Bool) (s : ProvState),
      writeProfileAction py2 (writeProfileAction py2 s) = writeProfileAction py2 s) ∧
    (∀ (fs fs' : FS) (p : Path), mkdirP fs p = some fs' → mkdirP fs' p = some fs') := by
  refine ⟨?_, fun s => rfl, fun py2 s => rfl,
    fun fs fs' p h => (mkdirP_spec fs fs' p h).2.2⟩
  intro s pkgs
  unfold installPackages
  dsimp only
  congr 1
  exact extendMissing_idem s.installed pkgs

/-- Witness for C3: installing `git` twice onto an empty state, and
re-creating an already-existing directory. -/
theorem step_actions_idempotent_witness :
    installPackages ["git"] (installPackages ["git"] ⟨[], ⟨[], []⟩, none, ""⟩) =
      installPackages ["git"] ⟨[], ⟨[], []⟩, none, ""⟩ ∧
    mkdirP ⟨[["var"]], []⟩ ["var"] = some ⟨[["var"]], []⟩ :=
  ⟨step_actions_idempotent.1 ⟨[], ⟨[], []⟩, none, ""⟩ ["git"],
   step_actions_idempotent.2.2.2 ⟨[["var"]], []⟩ ⟨[["var"]], []⟩ ["var"] (by decide)⟩

/-- C10: in containerized (`--docker`) mode (not CI mode, whose branch
takes precedence), the service block issues `pg_dropcluster` and
`pg_createcluster`: whatever data the postgres cluster held before, after
the block it is a fresh empty cluster — while the rabbitmq, redis and
memcached restarts leave those services' stored data unchanged, as does
the whole service block of plain CI mode. -/
theorem docker_mode_resets_postgres (f : Flags) (s : ServiceState)
    (hd : f.docker = true) (ht : f.travis = false) :
    ["sudo", "pg_dropcluster", "--stop", "POSTGRES_VERSION", "main"] ∈ serviceCmds f ∧
    ["sudo", "pg_createcluster", "-e", "utf8", "--start", "POSTGRES_VERSION", "main"] ∈ serviceCmds f ∧
    (runServiceBlock f s).pgCluster = some 0 ∧
    (runServiceBlock f s).rabbitData = s.rabbitData ∧
    (runServiceBlock f s).redisData = s.redisData ∧
    (runServiceBlock f s).memcachedData = s.memcachedData ∧
    (∀ s2 : ServiceState, runServiceBlock ⟨true, false, false, false⟩ s2 = s2) := by
  obtain ⟨t, pt, d, p2⟩ := f
  dsimp only at hd ht
  subst hd; subst ht
  cases pt <;> cases p2 <;>
    exact ⟨by decide, by decide, rfl, rfl, rfl, rfl, fun s2 => rfl⟩

/-- Witness for C10 at concrete flags and a cluster holding data. -/
theorem docker_mode_resets_postgres_witness :
    ["sudo", "pg_dropcluster", "--stop", "POSTGRES_VERSION", "main"] ∈
      serviceCmds ⟨false, false, true, false⟩ ∧
    ["sudo", "pg_createcluster", "-e", "utf8", "--start", "POSTGRES_VERSION", "main"] ∈
      serviceCmds ⟨false, false, true, false⟩ ∧
    (runServiceBlock ⟨false, false, true, false⟩ ⟨1, 2, 3, some 7⟩).pgCluster = some 0 ∧
    (runServiceBlock ⟨false, false, true, false⟩ ⟨1, 2, 3, some 7⟩).rabbitData = 1 ∧
    (runServiceBlock ⟨false, false, true, false⟩ ⟨1, 2, 3, some 7⟩).redisData = 2 ∧
    (runServiceBlock ⟨false, false, true, false⟩ ⟨1, 2, 3, some 7⟩).memcachedData = 3 ∧
    (∀ s2 : ServiceState, runServiceBlock ⟨true, false, false, false⟩ s2 = s2) :=
  docker_mode_resets_postgres ⟨false, false, true, false⟩ ⟨1, 2, 3, some 7⟩ rfl rfl

end Provision
